import Mathlib

/-!
Verification of the `fp-switch-on` dispatch utility.

The library source (the generalised variant, with handlers receiving the
choice followed by extra arguments) is:

  export const basedOn =
    <T extends string | number | symbol, P extends any[] = void[]>(
      paths: Record<T, (...args: [T, ...P]) => void>
    ) =>
    (choice: T, ...rest: P) => {
      return paths[choice](choice, ...rest);
    };
  export const switchOn = basedOn;
  export const basedOnPartial =
    <T extends string | number | symbol, P extends any[] = void[]>(
      paths: Partial<Record<T, (...args: [T, ...P]) => void>>
    ) =>
    (choice: T, ...rest: P) => {
      return paths[choice] && paths[choice](choice, ...rest);
    };
  export const switchOnPartial = basedOnPartial;

(`src/src/index.ts` holds the zero-extra-argument instance of the same
contract, with thunk handlers invoked as `paths[choice]()`.)

Embedding conventions:
* `K` is the choice type, `A` the type of one extra argument (the rest
  tuple becomes `List A`), `R` the handler result type, `E` a type of
  user-defined (handler-raised) error payloads.
* A JavaScript computation either returns a value or throws, so handler
  application and dispatcher invocation land in
  `Except (JSErr E) (Option R)`; `Option.none` is the JS value
  `undefined`, `JSErr.typeError` is the `TypeError` raised when a
  non-function (here: the `undefined` produced by a missing table entry)
  is called.
* A dispatch table is the object literal: an association list from keys
  to property values; a property value stored in the table is either a
  handler function or the value `undefined`.  Property access
  `paths[choice]` on a key that is not present yields `undefined`.
-/

/-- A JavaScript error: either the engine-raised `TypeError` produced by
calling a non-function value, or an error a handler itself throws. -/
inductive JSErr (E : Type) : Type where
  | typeError : JSErr E
  | userErr : E → JSErr E
deriving DecidableEq, Repr

/-- The type of handler functions stored in a dispatch table:
`(...args: [T, ...P]) => ...` — the choice first, then the extra
arguments; the call either throws or returns a JS value (possibly
`undefined`, modelled as `Option.none`). -/
def Handler (K A R E : Type) : Type :=
  K → List A → Except (JSErr E) (Option R)

/-- A property value held in a dispatch table: either `undefined` or a
handler function.  (The TS types only allow functions, but a key may
dynamically be bound to `undefined`, which is what the partial variant's
truthiness test reacts to.) -/
inductive Entry (K A R E : Type) : Type where
  | undef : Entry K A R E
  | func : Handler K A R E → Entry K A R E

/-- A dispatch table: the object literal `paths`, as an association list
from choice values to property values. -/
def Table (K A R E : Type) : Type :=
  List (K × Entry K A R E)

/-- The key set of a table. -/
def keysOf {K A R E : Type} (paths : Table K A R E) : List K :=
  paths.map Prod.fst

/-- JS property access `paths[choice]`: the value bound to the key, or
`undefined` when the key is not present. -/
def getProp {K A R E : Type} [DecidableEq K] :
    Table K A R E → K → Entry K A R E
  | [], _ => Entry.undef
  | (k, e) :: rest, c => if c = k then e else getProp rest c

/-- `basedOn` (src/unnamed/part_001, lines 1-7): the exhaustive
dispatcher.  `paths[choice](choice, ...rest)` — the looked-up property is
called with the choice prepended to the extra arguments; if the lookup
yielded `undefined` (no table entry), calling it raises a `TypeError`. -/
def basedOn {K A R E : Type} [DecidableEq K] (paths : Table K A R E) :
    K → List A → Except (JSErr E) (Option R) :=
  fun choice rest =>
    match getProp paths choice with
    | Entry.undef => Except.error JSErr.typeError
    | Entry.func f => f choice rest

/-- `switchOn = basedOn` (src/unnamed/part_001, line 9). -/
def switchOn {K A R E : Type} [DecidableEq K] :
    Table K A R E → K → List A → Except (JSErr E) (Option R) :=
  basedOn

/-- `basedOnPartial` (src/unnamed/part_001, lines 10-16): the partial
dispatcher.  `paths[choice] && paths[choice](choice, ...rest)` — when the
looked-up value is falsy (`undefined`), the conjunction short-circuits
and returns that falsy value (`undefined`); otherwise the handler is
called exactly as in `basedOn`. -/
def basedOnPartial {K A R E : Type} [DecidableEq K] (paths : Table K A R E) :
    K → List A → Except (JSErr E) (Option R) :=
  fun choice rest =>
    match getProp paths choice with
    | Entry.undef => Except.ok none
    | Entry.func f => f choice rest

/-- `switchOnPartial = basedOnPartial` (src/unnamed/part_001, line 17). -/
def switchOnPartial {K A R E : Type} [DecidableEq K] :
    Table K A R E → K → List A → Except (JSErr E) (Option R) :=
  basedOnPartial

/-- The construction step of `basedOn`: applying the outer arrow to the
table.  Its body is a bare lambda expression, so as a JS computation it
always returns (never throws); the `Except` codomain records that. -/
def basedOnCtor {K A R E : Type} [DecidableEq K] (paths : Table K A R E) :
    Except (JSErr E) (K → List A → Except (JSErr E) (Option R)) :=
  Except.ok (basedOn paths)

/-- The construction step of `basedOnPartial`: likewise a bare lambda,
always returns. -/
def basedOnPartialCtor {K A R E : Type} [DecidableEq K] (paths : Table K A R E) :
    Except (JSErr E) (K → List A → Except (JSErr E) (Option R)) :=
  Except.ok ( basedOnPartial paths)

/-- Two successive invocations of the same exhaustive dispatcher with the
same choice and arguments, returned as a pair. -/
def invokeTwice {K A R E : Type} [DecidableEq K] (paths : Table K A R E)
    (choice : K) (rest : List A) :
    Except (JSErr E) (Option R) × Except (JSErr E) (Option R) :=
  let d := basedOn paths
  (d choice rest, d choice rest)

/-- Two successive invocations of the same partial dispatcher with the
same choice and arguments, returned as a pair. -/
def invokeTwicePartial {K A R E : Type} [DecidableEq K] (paths : Table K A R E)
    (choice : K) (rest : List A) :
    Except (JSErr E) (Option R) × Except (JSErr E) (Option R) :=
  let d := basedOnPartial paths
  (d choice rest, d choice rest)

/-- A table covers a domain `D` when every member of `D` is bound to a
handler function. -/
def Covers {K A R E : Type} [DecidableEq K]
    (paths : Table K A R E) (D : List K) : Prop :=
  ∀ k ∈ D, ∃ f, getProp paths k = Entry.func f

-- Helper lemmas -------------------------------------------------------

/-- A key that is absent from the table looks up to `undefined`. -/
theorem getProp_eq_undef_of_not_mem {K A R E : Type} [DecidableEq K]
    (paths : Table K A R E) (c : K) (h : c ∉ keysOf paths) :
    getProp paths c = Entry.undef := by
  induction paths with
  | nil => rfl
  | cons hd tl ih =>
    obtain ⟨k, e⟩ := hd
    simp only [keysOf, List.map_cons, List.mem_cons] at h
    push_neg at h
    simp only [getProp, if_neg h.1]
    exact ih (by simpa [keysOf] using h.2)

-- Concrete instances used by the witness theorems ---------------------

/-- A concrete handler for key `1`. -/
def hOne : Handler Nat Nat String String :=
  fun _ _ => Except.ok (some "one")

/-- A concrete handler for key `2` that echoes its inputs. -/
def hTwo : Handler Nat Nat String String :=
  fun c rest => Except.ok (some (toString c ++ toString (rest.sum)))

/-- A concrete handler that always throws. -/
def hBoom : Handler Nat Nat String String :=
  fun _ _ => Except.error (JSErr.userErr "boom")

/-- A concrete total table over the domain `[1, 2]`. -/
def exTable : Table Nat Nat String String :=
  [(1, Entry.func hOne), (2, Entry.func hTwo)]

/-- A concrete partial table: only key `1` is bound. -/
def exPartialTable : Table Nat Nat String String :=
  [(1, Entry.func hOne)]

/-- A concrete table whose key `3` is present but bound to `undefined`. -/
def exUndefTable : Table Nat Nat String String :=
  [(3, Entry.undef), (1, Entry.func hOne)]

/-- A concrete table whose only handler throws. -/
def exBoomTable : Table Nat Nat String String :=
  [(7, Entry.func hBoom)]

-- Claim theorems ------------------------------------------------------

/-- C1: for every total mapping covering domain `D`, every choice `c` in
`D`, and every list of extra arguments, the exhaustive dispatcher built
from the mapping returns exactly the result of the handler bound to `c`
applied to `(c, ...extra)`. -/
theorem exhaustive_dispatch_applies_handler {K A R E : Type} [DecidableEq K]
    (paths : Table K A R E) (D : List K) (c : K) (rest : List A)
    (hT : Covers paths D) (hc : c ∈ D)
    (f : Handler K A R E) (hf : getProp paths c = Entry.func f) :
    basedOn paths c rest = f c rest := by
  have := hT c hc
  simp only [basedOn, hf]

/-- Witness for C1 at the concrete table `exTable` over domain `[1, 2]`,
choice `2`, extra arguments `[40, 2]`. -/
theorem exhaustive_dispatch_applies_handler_witness :
    basedOn exTable 2 [40, 2] = hTwo 2 [40, 2] :=
  exhaustive_dispatch_applies_handler exTable [1, 2] 2 [40, 2]
    (by
      intro k hk
      fin_cases hk
      · exact ⟨hOne, rfl⟩
      · exact ⟨hTwo, rfl⟩)
    (by decide) hTwo rfl

/-- C2: in both modes, a matched handler is invoked with the choice value
as its first argument followed by the caller-supplied extra arguments
unchanged and in order, and the dispatcher returns the handler's result. -/
theorem dispatch_prepends_choice_to_args {K A R E : Type} [DecidableEq K]
    (paths : Table K A R E) (c : K) (rest : List A)
    (f : Handler K A R E) (hf : getProp paths c = Entry.func f) :
    basedOn paths c rest = f c rest ∧ basedOnPartial paths c rest = f c rest := by
  constructor
  · simp only [basedOn, hf]
  · simp only [basedOnPartial, hf]

/-- Witness for C2 at `exTable`, choice `1`, extra arguments `[9]`. -/
theorem dispatch_prepends_choice_to_args_witness :
    basedOn exTable 1 [9] = hOne 1 [9] ∧
      basedOnPartial exTable 1 [9] = hOne 1 [9] :=
  dispatch_prepends_choice_to_args exTable 1 [9] hOne rfl

/-- C3: invoking the partial dispatcher with a choice that is not a key
of the table returns the absence marker (`undefined`, i.e. `none`) and
never raises an error. -/
theorem partial_dispatch_absent_returns_marker {K A R E : Type} [DecidableEq K]
    (paths : Table K A R E) (c : K) (rest : List A) (h : c ∉ keysOf paths) :
    basedOnPartial paths c rest = Except.ok none := by
  simp only [basedOnPartial, getProp_eq_undef_of_not_mem paths c h]

/-- Witness for C3 at `exPartialTable` (whose only key is `1`) and the
absent choice `2`. -/
theorem partial_dispatch_absent_returns_marker_witness :
    basedOnPartial exPartialTable 2 [] = Except.ok none :=
  partial_dispatch_absent_returns_marker exPartialTable 2 [] (by decide)

/-- C4: invoking the exhaustive dispatcher with a choice not present in
its table raises the missing-handler error (the `TypeError` produced by
calling the `undefined` lookup result), propagated to the caller. -/
theorem exhaustive_dispatch_missing_raises {K A R E : Type} [DecidableEq K]
    (paths : Table K A R E) (c : K) (rest : List A) (h : c ∉ keysOf paths) :
    basedOn paths c rest = Except.error JSErr.typeError := by
  simp only [basedOn, getProp_eq_undef_of_not_mem paths c h]

/-- Witness for C4 at `exTable` (keys `1` and `2`) and the absent choice
`5`. -/
theorem exhaustive_dispatch_missing_raises_witness :
    basedOn exTable 5 [] =
      (Except.error JSErr.typeError : Except (JSErr String) (Option String)) :=
  exhaustive_dispatch_missing_raises exTable 5 [] (by decide)

/-- C5: for a choice bound to a handler in the table, the partial
dispatcher returns exactly the handler applied to `(c, ...extra)`,
identical to the exhaustive dispatcher built from the same table. -/
theorem partial_dispatch_present_matches_exhaustive {K A R E : Type} [DecidableEq K]
    (paths : Table K A R E) (c : K) (rest : List A)
    (f : Handler K A R E) (hf : getProp paths c = Entry.func f) :
    basedOnPartial paths c rest = f c rest ∧
      basedOnPartial paths c rest = basedOn paths c rest := by
  constructor
  · simp only [basedOnPartial, hf]
  · simp only [basedOnPartial, basedOn, hf]

/-- Witness for C5 at `exPartialTable`, choice `1`, extra arguments
`[3]`. -/
theorem partial_dispatch_present_matches_exhaustive_witness :
    basedOnPartial exPartialTable 1 [3] = hOne 1 [3] ∧
      basedOnPartial exPartialTable 1 [3] = basedOn exPartialTable 1 [3] :=
  partial_dispatch_present_matches_exhaustive exPartialTable 1 [3] hOne rfl

/-- C6: the aliases are strictly interchangeable with the primary names:
`switchOn` and `basedOn` agree on every table, choice and extra
arguments, and so do `switchOnPartial` and `basedOnPartial`. -/
theorem aliases_strictly_interchangeable :
    ∀ (K A R E : Type) [DecidableEq K] (paths : Table K A R E)
      (c : K) (rest : List A),
      (switchOn paths c rest : Except (JSErr E) (Option R)) =
          basedOn paths c rest ∧
        switchOnPartial paths c rest = basedOnPartial paths c rest := by
  intro K A R E _ paths c rest
  exact ⟨rfl, rfl⟩

/-- C7: invoking the same dispatcher (in either mode) twice with the same
choice and arguments yields the same result both times; a dispatcher is a
pure function of the table it closes over and its call arguments, with no
hidden mutable state. -/
theorem dispatcher_invocation_deterministic :
    ∀ (K A R E : Type) [DecidableEq K] (paths : Table K A R E)
      (c : K) (rest : List A),
      ((invokeTwice paths c rest : _ × Except (JSErr E) (Option R)).1 =
          (invokeTwice paths c rest).2) ∧
        (( invokeTwicePartial paths c rest).1 =
          ( invokeTwicePartial paths c rest).2) := by
  intro K A R E _ paths c rest
  exact ⟨rfl, rfl⟩

/-- C8: an error raised by a matched handler passes through either
dispatcher unmodified: the exact error becomes the dispatcher's outcome,
with no catching, wrapping or translation. -/
theorem handler_error_passes_through {K A R E : Type} [DecidableEq K]
    (paths : Table K A R E) (c : K) (rest : List A)
    (f : Handler K A R E) (hf : getProp paths c = Entry.func f)
    (e : JSErr E) (he : f c rest = Except.error e) :
    basedOn paths c rest = Except.error e ∧
      basedOnPartial paths c rest = Except.error e := by
  constructor
  · simp only [basedOn, hf, he]
  · simp only [basedOnPartial, hf, he]

/-- Witness for C8 at `exBoomTable`, whose handler at key `7` throws
`userErr "boom"`. -/
theorem handler_error_passes_through_witness :
    basedOn exBoomTable 7 [] = Except.error (JSErr.userErr "boom") ∧
      basedOnPartial exBoomTable 7 [] = Except.error (JSErr.userErr "boom") :=
  handler_error_passes_through exBoomTable 7 [] hBoom rfl
    (JSErr.userErr "boom") rfl

/-- C9: in the partial dispatcher, a key that is present but bound to
`undefined` behaves exactly like an absent key: the dispatcher returns
`undefined` without invoking anything and never raises, because the
presence test is the truthiness of the looked-up value, not key
membership; the absence marker is the value `undefined` itself. -/
theorem partial_undef_entry_behaves_like_absent {K A R E : Type} [DecidableEq K]
    (paths : Table K A R E) (c : K) (rest : List A)
    (hmem : c ∈ keysOf paths) (h : getProp paths c = Entry.undef) :
    basedOnPartial paths c rest = Except.ok none ∧
      ∀ (paths2 : Table K A R E), c ∉ keysOf paths2 →
        basedOnPartial paths c rest = basedOnPartial paths2 c rest := by
  constructor
  · simp only [basedOnPartial, h]
  · intro paths2 h2
    simp only [basedOnPartial, h, getProp_eq_undef_of_not_mem paths2 c h2]

/-- Witness for C9 at `exUndefTable`, whose key `3` is present but bound
to `undefined`. -/
theorem partial_undef_entry_behaves_like_absent_witness :
    basedOnPartial exUndefTable 3 [] = Except.ok none :=
  (partial_undef_entry_behaves_like_absent exUndefTable 3 [] (by decide) rfl).1

/-- C10: both constructors accept any table (including tables missing
some or all domain members) without runtime validation: construction
always succeeds, returning the dispatcher without raising, and in
exhaustive mode a totality violation surfaces only at invocation time, as
the missing-handler `TypeError`. -/
theorem constructors_perform_no_validation :
    ∀ (K A R E : Type) [DecidableEq K] (paths : Table K A R E),
      (basedOnCtor paths : Except (JSErr E) _) = Except.ok (basedOn paths) ∧
        basedOnPartialCtor paths = Except.ok ( basedOnPartial paths) ∧
        ∀ (c : K) (rest : List A), c ∉ keysOf paths →
          basedOn paths c rest = Except.error JSErr.typeError := by
  intro K A R E _ paths
  refine ⟨rfl, rfl, ?_⟩
  intro c rest h
  simp only [basedOn, getProp_eq_undef_of_not_mem paths c h]

/-- Witness for C10 at `exPartialTable`: construction succeeds although
key `9` is uncovered, and invoking the exhaustive dispatcher at `9`
raises the missing-handler error. -/
theorem constructors_perform_no_validation_witness :
    basedOnCtor exPartialTable = Except.ok (basedOn exPartialTable) ∧
      basedOn exPartialTable 9 [] = Except.error JSErr.typeError :=
  ⟨(constructors_perform_no_validation Nat Nat String String exPartialTable).1,
    (constructors_perform_no_validation Nat Nat String String
        exPartialTable).2.2 9 [] (by decide)⟩
